import Mathlib

/-!
Shallow embedding of src/cli.py, a one-shot client for a file-based
inter-process command protocol.  The two waiting loops interact with the
operating system through `os.open`, `read_text`, `time.monotonic` and
`time.sleep`; we model those interactions by an environment that records,
for each loop iteration, the outcome of the system call and the value of
the monotonic clock at the deadline check.  Monotonic time is modelled by
rationals (seconds); loops are written by structural recursion on a fuel
argument, with `none` meaning the fuel ran out before the loop finished.
-/

namespace Cli

/-- Errno values as exposed by the Python `errno` module on Linux. -/
def ENOENT : Nat := 2

/-- Errno for the no-reader-attached condition on a nonblocking pipe open. -/
def ENXIO : Nat := 6

/-- The fixed backoff used by both retry loops: `time.sleep(0.05)`. -/
def pollInterval : ℚ := 1 / 20

/-- An operating-system error: the errno together with the message text
that Python would render for the exception (`str(exc)`). -/
structure OSErr where
  errno : Nat
  msg : String
deriving DecidableEq

/-- Result of one `os.open(pipe_path, os.O_WRONLY | os.O_NONBLOCK)` attempt. -/
inductive OpenResult where
  | ok : OpenResult
  | err (e : OSErr) : OpenResult
deriving DecidableEq

/-- Result of one `read_text(output_path)` call: the decoded file content,
or the `OSError` it raised (`FileNotFoundError` is the case
`errno = ENOENT`). -/
inductive ReadResult where
  | content (text : String) : ReadResult
  | err (e : OSErr) : ReadResult
deriving DecidableEq

/-- Environment of one `send_command` call: the clock at entry (line 15),
the outcome of the open attempt in each iteration of the retry loop, the
clock value observed at the deadline check of each iteration (line 25),
and the error, if any, raised by the write/flush/close block after a
successful open (lines 29-31). -/
structure SendEnv where
  now0 : ℚ
  openAttempt : Nat → OpenResult
  writeErr : Option OSErr
  check : Nat → ℚ

/-- Environment of one `wait_for_response` call: the clock at entry
(line 40), the outcome of `read_text` in each iteration, and the clock
value observed at the deadline check of each iteration (line 49). -/
structure WaitEnv where
  now0 : ℚ
  read : Nat → ReadResult
  check : Nat → ℚ

/-- Outcome of the pipe-open retry loop of `send_command`. -/
inductive OpenOutcome where
  | opened : OpenOutcome
  | failed (e : OSErr) : OpenOutcome
  | timedOut (msg : String) : OpenOutcome
deriving DecidableEq

/-- Outcome of `send_command`: the delivered payload on success, a
propagated `OSError`, or a `TimeoutError` with its message. -/
inductive SendResult where
  | sent (delivered : String) : SendResult
  | oserr (e : OSErr) : SendResult
  | timedOut (msg : String) : SendResult
deriving DecidableEq

/-- Outcome of `wait_for_response`. -/
inductive WaitResult where
  | ok (text : String) : WaitResult
  | oserr (e : OSErr) : WaitResult
  | timedOut (msg : String) : WaitResult
deriving DecidableEq

/-- `deadline = time.monotonic() + timeout` at entry of `send_command`
(line 15). -/
def sendDeadline (env : SendEnv) (timeout : ℚ) : ℚ :=
  env.now0 + timeout

/-- `deadline = time.monotonic() + timeout` at entry of
`wait_for_response` (line 40). -/
def waitDeadline (env : WaitEnv) (timeout : ℚ) : ℚ :=
  env.now0 + timeout

/-- The retry loop of `send_command` (lines 18-27): attempt a nonblocking
open; on an `OSError` whose errno is neither `ENOENT` nor `ENXIO`,
re-raise; otherwise raise `TimeoutError` if the clock has reached the
deadline, else sleep 50ms and retry.  `k` is the iteration index, the
last argument is fuel. -/
def openLoop (env : SendEnv) (pipePath : String) (deadline : ℚ) :
    Nat → Nat → Option OpenOutcome
  | _, 0 => none
  | k, fuel + 1 =>
    match env.openAttempt k with
    | .ok => some .opened
    | .err e =>
      if ¬ (e.errno = ENOENT ∨ e.errno = ENXIO) then
        some (.failed e)
      else if deadline ≤ env.check k then
        some (.timedOut ("timed out waiting for pipe: " ++ pipePath))
      else
        openLoop env pipePath deadline (k + 1) fuel

/-- `send_command(pipe_path, command, timeout)` (lines 14-31): run the
open retry loop against the deadline computed at entry; on a successful
open, write `command + "\n"`, flush and close (any error in that block
propagates). -/
def send_command (env : SendEnv) (pipePath command : String) (timeout : ℚ)
    (fuel : Nat) : Option SendResult :=
  match openLoop env pipePath (sendDeadline env timeout) 0 fuel with
  | none => none
  | some .opened =>
    match env.writeErr with
    | some e => some (.oserr e)
    | none => some (.sent (command ++ "\n"))
  | some (.failed e) => some (.oserr e)
  | some (.timedOut m) => some (.timedOut m)

/-- Bool test that the first list is an initial segment of the second. -/
def listIsPre : List Char → List Char → Bool
  | [], _ => true
  | _ :: _, [] => false
  | a :: as, b :: bs => a == b && listIsPre as bs

/-- Bool test that `needle` occurs contiguously inside the second list;
this is the semantics of the Python substring operator `in` on `str`. -/
def listHasSub (needle : List Char) : List Char → Bool
  | [] => listIsPre needle []
  | c :: rest => listIsPre needle (c :: rest) || listHasSub needle rest

/-- Python `needle in haystack` on strings. -/
def strContains (haystack needle : String) : Bool :=
  listHasSub needle.toList haystack.toList

/-- The correlation marker: the f-string `f"command={command}"` of
line 44. -/
def marker (command : String) : String :=
  "command=" ++ command

/-- The match condition of line 44:
`text != previous and f"command={command}" in text`. -/
def respMatches (previous command text : String) : Bool :=
  text != previous && strContains text (marker command)

/-- The poll loop of `wait_for_response` (lines 41-52): read the output
file; if the content differs from `previous` and contains the marker,
return it; a `FileNotFoundError` (errno `ENOENT`) is passed over, any
other `OSError` propagates; then break into `TimeoutError` if the clock
has reached the deadline, else sleep 50ms and retry. -/
def waitLoop (env : WaitEnv) (outputPath previous command : String)
    (deadline : ℚ) : Nat → Nat → Option WaitResult
  | _, 0 => none
  | k, fuel + 1 =>
    match env.read k with
    | .content t =>
      if respMatches previous command t then
        some (.ok t)
      else if deadline ≤ env.check k then
        some (.timedOut ("timed out waiting for response file update: " ++ outputPath))
      else
        waitLoop env outputPath previous command deadline (k + 1) fuel
    | .err e =>
      if e.errno ≠ ENOENT then
        some (.oserr e)
      else if deadline ≤ env.check k then
        some (.timedOut ("timed out waiting for response file update: " ++ outputPath))
      else
        waitLoop env outputPath previous command deadline (k + 1) fuel

/-- `wait_for_response(output_path, previous, command, timeout)`
(lines 39-54). -/
def wait_for_response (env : WaitEnv) (outputPath previous command : String)
    (timeout : ℚ) (fuel : Nat) : Option WaitResult :=
  waitLoop env outputPath previous command (waitDeadline env timeout) 0 fuel

/-- The whitespace set of Python `str.strip()`: the characters for which
CPython's Py_UNICODE_ISSPACE predicate holds (code points 09-0D, 1C-1F,
20, 85, A0, 1680, 2000-200A, 2028, 2029, 202F, 205F and 3000). -/
def isPySpace (c : Char) : Bool :=
  (0x09 ≤ c.toNat && c.toNat ≤ 0x0d) ||
  (0x1c ≤ c.toNat && c.toNat ≤ 0x1f) ||
  c.toNat == 0x20 || c.toNat == 0x85 || c.toNat == 0xa0 ||
  c.toNat == 0x1680 ||
  (0x2000 ≤ c.toNat && c.toNat ≤ 0x200a) ||
  c.toNat == 0x2028 || c.toNat == 0x2029 || c.toNat == 0x202f ||
  c.toNat == 0x205f || c.toNat == 0x3000

/-- Python `s.strip()`: drop leading and trailing whitespace. -/
def pyStrip (s : String) : String :=
  String.mk (((s.toList.dropWhile isPySpace).reverse.dropWhile isPySpace).reverse)

/-- `" ".join(args.command).strip()` (line 65). -/
def commandOf (words : List String) : String :=
  pyStrip (String.intercalate " " words)

/-- Number of newline characters in a string. -/
def newlineCount (s : String) : Nat :=
  s.toList.count '\n'

/-- Python `s.endswith("\n")`. -/
def strEndsWithNewline (s : String) : Bool :=
  match s.toList.getLast? with
  | some c => c == '\n'
  | none => false

/-- Environment of one `main` invocation: the outcome of the baseline
`read_text(args.out)` (line 71) and the environments of the send and
wait phases. -/
structure MainEnv where
  baselineRead : ReadResult
  send : SendEnv
  wait : WaitEnv

/-- Outcome of `main`: an exit code together with the text written to
stdout and stderr, or an exception that escapes `main` uncaught (an
`OSError` other than `FileNotFoundError` raised by the baseline read,
which lines 70-73 do not catch). -/
inductive MainResult where
  | exit (code : Nat) (stdout stderr : String) : MainResult
  | uncaught (e : OSErr) : MainResult
deriving DecidableEq

/-- `print(f"error: {exc}", file=sys.stderr)`: one stderr line. -/
def errorLine (msg : String) : String :=
  "error: " ++ msg ++ "\n"

/-- Lines 70-73: the baseline is the output file content, with an absent
file (`FileNotFoundError`) treated as empty content; any other `OSError`
escapes `main`. -/
def baselineOf : ReadResult → Except OSErr String
  | .content s => .ok s
  | .err e => if e.errno = ENOENT then .ok "" else .error e

/-- `main` (lines 57-88), after argument parsing: join and trim the words
into the command, reject an empty command with exit code 2; capture the
baseline; send; on `TimeoutError` or `OSError` report and exit 1; wait;
same error handling; on success write the response to stdout, adding a
newline when the response does not end in one, and exit 0. -/
def main (words : List String) (pipePath outPath : String) (timeout : ℚ)
    (env : MainEnv) (fuel : Nat) : Option MainResult :=
  let command := commandOf words
  if command = "" then
    some (.exit 2 "" "error: empty command\n")
  else
    match baselineOf env.baselineRead with
    | .error e => some (.uncaught e)
    | .ok previous =>
      match send_command env.send pipePath command timeout fuel with
      | none => none
      | some (.oserr e) => some (.exit 1 "" (errorLine e.msg))
      | some (.timedOut m) => some (.exit 1 "" (errorLine m))
      | some (.sent _) =>
        match wait_for_response env.wait outPath previous command timeout fuel with
        | none => none
        | some (.oserr e) => some (.exit 1 "" (errorLine e.msg))
        | some (.timedOut m) => some (.exit 1 "" (errorLine m))
        | some (.ok response) =>
          some (.exit 0 (response ++ (if strEndsWithNewline response then "" else "\n")) "")

/-! ### Concrete environments used by the witnesses -/

/-- A pipe whose reader is attached from the start: every open attempt
succeeds, the write succeeds. -/
def envOpenOk : SendEnv :=
  { now0 := 0, openAttempt := fun _ => .ok, writeErr := none, check := fun _ => 0 }

/-- A successful open whose write block then fails with ENOSPC. -/
def envWriteErr : SendEnv :=
  { now0 := 0, openAttempt := fun _ => .ok,
    writeErr := some ⟨28, "No space left on device"⟩, check := fun _ => 0 }

/-- Every open attempt fails with EACCES (errno 13), a non-retriable
error. -/
def envPermDenied : SendEnv :=
  { now0 := 0, openAttempt := fun _ => .err ⟨13, "Permission denied"⟩,
    writeErr := none, check := fun _ => 0 }

/-- A pipe with no reader: every open attempt fails with ENOENT and the
clock reads 1 at every deadline check. -/
def envNoReader : SendEnv :=
  { now0 := 0, openAttempt := fun _ => .err ⟨ENOENT, "No such file or directory"⟩,
    writeErr := none, check := fun k => (k : ℚ) * pollInterval + 1 }

/-- A pipe with no reader under an idealised clock that advances by
exactly one poll interval per iteration, starting at the entry time. -/
def envPoll : SendEnv :=
  { now0 := 0, openAttempt := fun _ => .err ⟨ENOENT, "No such file or directory"⟩,
    writeErr := none, check := fun k => (k : ℚ) * pollInterval }

/-- An output file that already holds a fresh matching response. -/
def wEnvHit : WaitEnv :=
  { now0 := 0, read := fun _ => .content "command=state\nHP: 100\n",
    check := fun _ => 0 }

/-- An output file holding stale content that already contains the
marker of the command `heal` and is never rewritten. -/
def wEnvStale : WaitEnv :=
  { now0 := 0, read := fun _ => .content "command=heal stale",
    check := fun _ => 1 }

/-- Every read of the output file fails with EACCES (errno 13). -/
def wEnvPerm : WaitEnv :=
  { now0 := 0, read := fun _ => .err ⟨13, "Permission denied"⟩,
    check := fun _ => 0 }

/-- The output file does not exist yet: every read raises
FileNotFoundError (errno ENOENT). -/
def wEnvMissing : WaitEnv :=
  { now0 := 0, read := fun _ => .err ⟨ENOENT, "No such file or directory"⟩,
    check := fun _ => 0 }

/-- A wait phase entered one second after the send phase started. -/
def wEnvLate : WaitEnv :=
  { now0 := 1, read := fun _ => .content "x", check := fun _ => 0 }

/-! ### Helper lemmas -/

/-- The poll loop hands back a text only when the match condition of
line 44 holds for it. -/
theorem waitLoop_ok_matches (env : WaitEnv) (outputPath previous command : String)
    (deadline : ℚ) (T : String) :
    ∀ fuel k, waitLoop env outputPath previous command deadline k fuel = some (.ok T) →
      respMatches previous command T = true := by
  intro fuel
  induction fuel with
  | zero =>
    intro k h
    simp [waitLoop] at h
  | succ n ih =>
    intro k h
    simp only [waitLoop] at h
    cases hr : env.read k with
    | content t =>
      simp only [hr] at h
      by_cases hm : respMatches previous command t = true
      · rw [if_pos hm] at h
        simp only [Option.some.injEq, WaitResult.ok.injEq] at h
        subst h
        exact hm
      · rw [if_neg hm] at h
        by_cases hd : deadline ≤ env.check k
        · rw [if_pos hd] at h
          simp at h
        · rw [if_neg hd] at h
          exact ih (k + 1) h
    | err e =>
      simp only [hr] at h
      by_cases he : e.errno ≠ ENOENT
      · rw [if_pos he] at h
        simp at h
      · rw [if_neg he] at h
        by_cases hd : deadline ≤ env.check k
        · rw [if_pos hd] at h
          simp at h
        · rw [if_neg hd] at h
          exact ih (k + 1) h

/-- While the clock stays strictly below the deadline, the poll loop
never reports a timeout. -/
theorem waitLoop_no_timeout (env : WaitEnv) (outputPath previous command : String)
    (deadline : ℚ) (hlt : ∀ k, env.check k < deadline) :
    ∀ fuel k m, waitLoop env outputPath previous command deadline k fuel ≠
      some (.timedOut m) := by
  intro fuel
  induction fuel with
  | zero =>
    intro k m h
    simp [waitLoop] at h
  | succ n ih =>
    intro k m h
    simp only [waitLoop] at h
    cases hr : env.read k with
    | content t =>
      simp only [hr] at h
      by_cases hm : respMatches previous command t = true
      · rw [if_pos hm] at h
        simp at h
      · rw [if_neg hm, if_neg (not_le.mpr (hlt k))] at h
        exact ih (k + 1) m h
    | err e =>
      simp only [hr] at h
      by_cases he : e.errno ≠ ENOENT
      · rw [if_pos he] at h
        simp at h
      · rw [if_neg he, if_neg (not_le.mpr (hlt k))] at h
        exact ih (k + 1) m h

/-- If every open attempt fails with a retriable errno, the open loop
times out exactly at the first deadline check the clock has reached. -/
theorem openLoop_timeout_at (env : SendEnv) (pipePath : String) (deadline : ℚ)
    (hfail : ∀ k, ∃ e, env.openAttempt k = .err e ∧
      (e.errno = ENOENT ∨ e.errno = ENXIO)) :
    ∀ m k, (∀ j, j < m → env.check (k + j) < deadline) →
      deadline ≤ env.check (k + m) →
      openLoop env pipePath deadline k (m + 1) =
        some (.timedOut ("timed out waiting for pipe: " ++ pipePath)) := by
  intro m
  induction m with
  | zero =>
    intro k _ hge
    obtain ⟨e, he, hr⟩ := hfail k
    simp only [openLoop, he]
    rw [if_neg (not_not_intro hr), if_pos (by simpa using hge)]
  | succ m ih =>
    intro k hlt hge
    obtain ⟨e, he, hr⟩ := hfail k
    have hk : env.check k < deadline := by simpa using hlt 0 (Nat.succ_pos m)
    simp only [openLoop, he]
    rw [if_neg (not_not_intro hr), if_neg (not_le.mpr hk)]
    refine ih (k + 1) (fun j hj => ?_) ?_
    · have := hlt (j + 1) (by omega)
      simpa [Nat.add_assoc, Nat.add_comm 1 j] using this
    · simpa [Nat.add_assoc, Nat.add_comm 1 m] using hge

/-- The concrete no-reader environment times out on the first check. -/
theorem envNoReader_timesOut (pipePath command : String) (fuel : Nat) :
    send_command envNoReader pipePath command 1 (fuel + 1) =
      some (.timedOut ("timed out waiting for pipe: " ++ pipePath)) := by
  simp [send_command, openLoop, envNoReader, sendDeadline, ENOENT, ENXIO]

/-- Appending the newline terminator makes the text end in a newline. -/
theorem strEndsWithNewline_append (s : String) :
    strEndsWithNewline (s ++ "\n") = true := by
  have : (s ++ "\n").toList.getLast? = some '\n' := by
    simp [String.toList, String.data_append]
  simp [strEndsWithNewline, this]

/-- Appending the newline terminator adds exactly one newline. -/
theorem newlineCount_append (s : String) :
    newlineCount (s ++ "\n") = newlineCount s + 1 := by
  simp [newlineCount, String.toList, String.data_append]

/-! ### The claims -/

/-- C1: for every output path, baseline string, command and timeout,
`wait_for_response` returns a string `T` only if `T` differs from the
baseline and `T` contains the substring `command=` followed by the
command; in particular it never returns content equal to the baseline,
even when the baseline itself contains the marker. -/
theorem claim_C1 (env : WaitEnv) (outputPath previous command : String)
    (timeout : ℚ) (fuel : Nat) (T : String)
    (h : wait_for_response env outputPath previous command timeout fuel =
      some (.ok T)) :
    T ≠ previous ∧ strContains T (marker command) = true := by
  have hm := waitLoop_ok_matches env outputPath previous command
    (waitDeadline env timeout) T fuel 0 h
  unfold respMatches at hm
  rw [Bool.and_eq_true] at hm
  exact ⟨bne_iff_ne.mp hm.1, hm.2⟩

/-- Witness for C1 at a concrete environment whose output file already
holds a fresh matching response for the command `state`. -/
theorem claim_C1_wit :
    "command=state\nHP: 100\n" ≠ "" ∧
      strContains "command=state\nHP: 100\n" (marker "state") = true :=
  claim_C1 wEnvHit "/tmp/fallout-cli-out.txt" "" "state" 2 1
    "command=state\nHP: 100\n" (by decide)

/-- C2: exactly the two designated not-ready conditions are swallowed and
retried: an open failure with errno ENOENT or ENXIO in `send_command`
(which proceeds to the next attempt when the deadline has not passed),
and a file-not-found read failure in `wait_for_response`; any other
error raised by an open, read or write in either loop is returned to the
caller at once, carrying the underlying error unchanged. -/
theorem claim_C2 (senv : SendEnv) (wenv : WaitEnv)
    (pipePath outputPath previous command : String) (dl t : ℚ)
    (k fuel : Nat) (e : OSErr) :
    (senv.openAttempt k = .err e → e.errno ≠ ENOENT → e.errno ≠ ENXIO →
      openLoop senv pipePath dl k (fuel + 1) = some (.failed e)) ∧
    (senv.openAttempt k = .err e → (e.errno = ENOENT ∨ e.errno = ENXIO) →
      senv.check k < dl →
      openLoop senv pipePath dl k (fuel + 1) =
        openLoop senv pipePath dl (k + 1) fuel) ∧
    (openLoop senv pipePath (sendDeadline senv t) 0 fuel = some .opened →
      senv.writeErr = some e →
      send_command senv pipePath command t fuel = some (.oserr e)) ∧
    (wenv.read k = .err e → e.errno ≠ ENOENT →
      waitLoop wenv outputPath previous command dl k (fuel + 1) =
        some (.oserr e)) ∧
    (wenv.read k = .err e → e.errno = ENOENT → wenv.check k < dl →
      waitLoop wenv outputPath previous command dl k (fuel + 1) =
        waitLoop wenv outputPath previous command dl (k + 1) fuel) := by
  refine ⟨?_, ?_, ?_, ?_, ?_⟩
  · intro he h1 h2
    simp only [openLoop, he]
    rw [if_pos]
    simp [h1, h2]
  · intro he hr hlt
    simp only [openLoop, he]
    rw [if_neg (not_not_intro hr), if_neg (not_le.mpr hlt)]
  · intro ho hw
    simp only [send_command, ho, hw]
  · intro he h1
    simp only [waitLoop, he]
    rw [if_pos h1]
  · intro he h1 hlt
    simp only [waitLoop, he]
    rw [if_neg (not_not_intro h1), if_neg (not_le.mpr hlt)]

/-- Witness for C2: a permission error on open propagates at once; an
ENOENT open failure before the deadline is retried; a write failure
after a successful open propagates; a permission error on read
propagates at once; a missing output file before the deadline is
retried. -/
theorem claim_C2_wit :
    (openLoop envPermDenied "/tmp/fallout-cli-in" 1 0 1 =
      some (.failed ⟨13, "Permission denied"⟩)) ∧
    (openLoop envNoReader "/tmp/fallout-cli-in" 2 0 3 =
      openLoop envNoReader "/tmp/fallout-cli-in" 2 1 2) ∧
    (send_command envWriteErr "/tmp/fallout-cli-in" "state" 1 1 =
      some (.oserr ⟨28, "No space left on device"⟩)) ∧
    (waitLoop wEnvPerm "/tmp/fallout-cli-out.txt" "" "state" 1 0 1 =
      some (.oserr ⟨13, "Permission denied"⟩)) ∧
    (waitLoop wEnvMissing "/tmp/fallout-cli-out.txt" "" "state" 1 0 1 =
      waitLoop wEnvMissing "/tmp/fallout-cli-out.txt" "" "state" 1 1 0) :=
  ⟨(claim_C2 envPermDenied wEnvHit "/tmp/fallout-cli-in" "" "" "" 1 1 0 0
      ⟨13, "Permission denied"⟩).1 rfl (by decide) (by decide),
   (claim_C2 envNoReader wEnvHit "/tmp/fallout-cli-in" "" "" "" 2 1 0 2
      ⟨ENOENT, "No such file or directory"⟩).2.1 rfl (Or.inl rfl)
      (by norm_num [envNoReader, pollInterval]),
   (claim_C2 envWriteErr wEnvHit "/tmp/fallout-cli-in" "" "" "state" 1 1 0 1
      ⟨28, "No space left on device"⟩).2.2.1 rfl rfl,
   (claim_C2 envOpenOk wEnvPerm "/tmp/fallout-cli-out.txt"
      "/tmp/fallout-cli-out.txt" "" "state" 1 1 0 0
      ⟨13, "Permission denied"⟩).2.2.2.1 rfl (by decide),
   (claim_C2 envOpenOk wEnvMissing "/tmp/fallout-cli-out.txt"
      "/tmp/fallout-cli-out.txt" "" "state" 1 1 0 0
      ⟨ENOENT, "No such file or directory"⟩).2.2.2.2 rfl rfl
      (by norm_num [wEnvMissing])⟩

/-- C7: calling `wait_for_response` with a timeout of 0 against a file
whose content has not changed from the baseline raises the timeout
error on the very first iteration, for every fuel bound: no polling
attempt happens beyond the deadline. -/
theorem claim_C7 (env : WaitEnv) (outputPath previous command : String)
    (fuel : Nat)
    (hread : env.read 0 = .content previous)
    (hclk : env.now0 ≤ env.check 0) :
    wait_for_response env outputPath previous command 0 (fuel + 1) =
      some (.timedOut ("timed out waiting for response file update: " ++
        outputPath)) := by
  unfold wait_for_response
  simp only [waitLoop, hread]
  rw [if_neg, if_pos]
  · simpa [waitDeadline] using hclk
  · simp [respMatches]

/-- Witness for C7: stale content that already contains `command=heal`
but was never rewritten still times out at timeout 0. -/
theorem claim_C7_wit :
    wait_for_response wEnvStale "/tmp/fallout-cli-out.txt"
      "command=heal stale" "heal" 0 1 =
      some (.timedOut ("timed out waiting for response file update: " ++
        "/tmp/fallout-cli-out.txt")) :=
  claim_C7 wEnvStale "/tmp/fallout-cli-out.txt" "command=heal stale" "heal" 0
    rfl (by norm_num [wEnvStale])

/-- C10: `wait_for_response` performs its first read-and-match attempt
before any deadline check, so if the output file content already differs
from the baseline and contains the marker at the moment of the call, it
returns that content for every timeout value, including zero and
negative ones. -/
theorem claim_C10 (env : WaitEnv) (outputPath previous command : String)
    (timeout : ℚ) (fuel : Nat) (txt : String)
    (hread : env.read 0 = .content txt)
    (hne : txt ≠ previous)
    (hmark : strContains txt (marker command) = true) :
    wait_for_response env outputPath previous command timeout (fuel + 1) =
      some (.ok txt) := by
  unfold wait_for_response
  simp only [waitLoop, hread]
  rw [if_pos]
  simp [respMatches, hmark, bne_iff_ne, hne]

/-- Witness for C10 at a negative timeout: the already-present matching
content is returned rather than timing out. -/
theorem claim_C10_wit :
    wait_for_response wEnvHit "/tmp/fallout-cli-out.txt" "" "state" (-1) 1 =
      some (.ok "command=state\nHP: 100\n") :=
  claim_C10 wEnvHit "/tmp/fallout-cli-out.txt" "" "state" (-1) 0
    "command=state\nHP: 100\n" rfl (by decide) (by decide)

/-- C3: the send phase and the wait phase each compute their own deadline
as their own entry time plus the full timeout; the wait phase can
therefore still succeed (and never times out) while its own clock stays
below its own entry time plus the full timeout, regardless of how much
time the send phase consumed; and when the send phase consumed at most
`t` of wall time, the wait deadline lies no later than `2 * t` after the
send phase entry. -/
theorem claim_C3 (senv : SendEnv) (wenv : WaitEnv)
    (outputPath previous command : String) (t s : ℚ) (fuel : Nat) :
    sendDeadline senv t = senv.now0 + t ∧
    waitDeadline wenv t = wenv.now0 + t ∧
    ((∀ k, wenv.check k < waitDeadline wenv t) →
      ∀ m, wait_for_response wenv outputPath previous command t fuel ≠
        some (.timedOut m)) ∧
    (0 ≤ s → s ≤ t → wenv.now0 = senv.now0 + s →
      waitDeadline wenv t ≤ senv.now0 + 2 * t) := by
  refine ⟨rfl, rfl, ?_, ?_⟩
  · intro hlt m
    exact waitLoop_no_timeout wenv outputPath previous command
      (waitDeadline wenv t) hlt fuel 0 m
  · intro _ hst hnow
    simp only [waitDeadline, hnow]
    linarith

/-- Witness for C3: a wait phase entered one second after the send phase
started still has its full two-second budget, never times out while its
clock stays below it, and its deadline is within twice the timeout of
the send entry. -/
theorem claim_C3_wit :
    sendDeadline envOpenOk 2 = envOpenOk.now0 + 2 ∧
    waitDeadline wEnvLate 2 = wEnvLate.now0 + 2 ∧
    (∀ m, wait_for_response wEnvLate "/tmp/fallout-cli-out.txt" "" "state" 2 5 ≠
      some (.timedOut m)) ∧
    waitDeadline wEnvLate 2 ≤ envOpenOk.now0 + 2 * 2 :=
  ⟨(claim_C3 envOpenOk wEnvLate "/tmp/fallout-cli-out.txt" "" "state" 2 1 5).1,
   (claim_C3 envOpenOk wEnvLate "/tmp/fallout-cli-out.txt" "" "state" 2 1 5).2.1,
   (claim_C3 envOpenOk wEnvLate "/tmp/fallout-cli-out.txt" "" "state" 2 1 5).2.2.1
     (by intro k; norm_num [wEnvLate, waitDeadline]),
   (claim_C3 envOpenOk wEnvLate "/tmp/fallout-cli-out.txt" "" "state" 2 1 5).2.2.2
     (by norm_num) (by norm_num)
     (by norm_num [wEnvLate, envOpenOk])⟩

/-- C4: if every open attempt fails with a retriable not-ready errno and
the idealised clock starts at the entry time, advances by at most one
poll interval per iteration, and eventually reaches the deadline, then
`send_command` raises the timeout error referencing the pipe path, at a
deadline check that lies no earlier than `timeout` after entry and no
more than one 50ms poll interval past the deadline. -/
theorem claim_C4 (env : SendEnv) (pipePath command : String) (t : ℚ)
    (h0 : env.check 0 = env.now0)
    (hstep : ∀ k, env.check (k + 1) ≤ env.check k + pollInterval)
    (ht : 0 ≤ t)
    (hfail : ∀ k, ∃ e, env.openAttempt k = .err e ∧
      (e.errno = ENOENT ∨ e.errno = ENXIO))
    (hex : ∃ n, sendDeadline env t ≤ env.check n) :
    ∃ k, send_command env pipePath command t (k + 1) =
        some (.timedOut ("timed out waiting for pipe: " ++ pipePath)) ∧
      sendDeadline env t ≤ env.check k ∧
      env.check k ≤ sendDeadline env t + pollInterval := by
  classical
  refine ⟨Nat.find hex, ?_, Nat.find_spec hex, ?_⟩
  · have hloop := openLoop_timeout_at env pipePath (sendDeadline env t) hfail
      (Nat.find hex) 0 (fun j hj => ?_) ?_
    · unfold send_command
      rw [hloop]
    · have := Nat.find_min hex (show j < Nat.find hex from hj)
      simpa using not_le.mp this
    · simpa using Nat.find_spec hex
  · cases hk : Nat.find hex with
    | zero =>
      rw [h0]
      have hp : (0 : ℚ) < pollInterval := by norm_num [pollInterval]
      simp only [sendDeadline]
      linarith
    | succ j =>
      have hj : ¬ sendDeadline env t ≤ env.check j := by
        apply Nat.find_min hex
        omega
      have := hstep j
      have hjlt := not_le.mp hj
      linarith

/-- Witness for C4: under the idealised 50ms clock with no reader ever
attaching, the timeout fires within one poll interval of the 100ms
deadline. -/
theorem claim_C4_wit :
    ∃ k, send_command envPoll "/tmp/fallout-cli-in" "state" (1 / 10) (k + 1) =
        some (.timedOut ("timed out waiting for pipe: " ++ "/tmp/fallout-cli-in")) ∧
      sendDeadline envPoll (1 / 10) ≤ envPoll.check k ∧
      envPoll.check k ≤ sendDeadline envPoll (1 / 10) + pollInterval :=
  claim_C4 envPoll "/tmp/fallout-cli-in" "state" (1 / 10)
    (by norm_num [envPoll])
    (by
      intro k
      exact le_of_eq (by simp only [envPoll]; push_cast; ring))
    (by norm_num)
    (fun k => ⟨⟨ENOENT, "No such file or directory"⟩, rfl, Or.inl rfl⟩)
    ⟨2, by norm_num [envPoll, sendDeadline, pollInterval]⟩

/-- C5 counterexample: for the command `a\nb`, which contains a newline,
`send_command` delivers `a\nb\n`, whose newline other than the appended
terminator refutes the universally quantified no-embedded-newline
clause of the claim. -/
theorem claim_C5_cex :
    send_command envOpenOk "/tmp/fallout-cli-in" "a\nb" 1 1 =
      some (.sent "a\nb\n") ∧
    ¬ newlineCount "a\nb\n" = 1 :=
  ⟨rfl, by decide⟩

/-- C5 (amended): whenever `send_command` succeeds, the delivered form is
exactly the command followed by one appended newline, the handle having
been written, flushed and closed; and when the command itself contains
no newline, the delivered form contains exactly one newline, the
terminator at its end. -/
theorem claim_C5 (env : SendEnv) (pipePath command : String) (t : ℚ)
    (fuel : Nat) (d : String)
    (h : send_command env pipePath command t fuel = some (.sent d)) :
    d = command ++ "\n" ∧
    (newlineCount command = 0 →
      newlineCount d = 1 ∧ strEndsWithNewline d = true) := by
  have hd : d = command ++ "\n" := by
    unfold send_command at h
    cases ho : openLoop env pipePath (sendDeadline env t) 0 fuel with
    | none => rw [ho] at h; simp at h
    | some oc =>
      rw [ho] at h
      cases oc with
      | opened =>
        cases hw : env.writeErr with
        | none => rw [hw] at h; simp at h; exact h.symm
        | some e => rw [hw] at h; simp at h
      | failed e => simp at h
      | timedOut m => simp at h
  subst hd
  refine ⟨rfl, fun hc => ⟨?_, strEndsWithNewline_append command⟩⟩
  rw [newlineCount_append, hc]

/-- Witness for C5 at the newline-free command `state`. -/
theorem claim_C5_wit :
    ("state" ++ "\n" = "state" ++ "\n") ∧
    (newlineCount ("state" ++ "\n") = 1 ∧
      strEndsWithNewline ("state" ++ "\n") = true) :=
  ⟨(claim_C5 envOpenOk "/tmp/fallout-cli-in" "state" 1 1 ("state" ++ "\n") rfl).1,
   (claim_C5 envOpenOk "/tmp/fallout-cli-in" "state" 1 1 ("state" ++ "\n") rfl).2
     (by decide)⟩

/-- A main invocation whose pipe never gets a reader. -/
def mEnvTimeout : MainEnv :=
  { baselineRead := .content "old", send := envNoReader, wait := wEnvHit }

/-- A main invocation whose pipe open fails with a permission error. -/
def mEnvPerm : MainEnv :=
  { baselineRead := .content "old", send := envPermDenied, wait := wEnvHit }

/-- A main invocation where everything succeeds. -/
def mEnvOk : MainEnv :=
  { baselineRead := .content "old", send := envOpenOk, wait := wEnvHit }

/-- C6: the orchestrator treats an absent output file as an empty
baseline, and when `send_command` raises (a timeout or any other
`OSError`) it reports the error and returns exit code 1 with a result
that does not depend on the wait phase at all: `wait_for_response` is
never invoked. -/
theorem claim_C6 (env : MainEnv) (words : List String)
    (pipePath outPath : String) (t : ℚ) (fuel : Nat) (e : OSErr)
    (m prev : String) :
    (e.errno = ENOENT → baselineOf (.err e) = .ok "") ∧
    (commandOf words ≠ "" → baselineOf env.baselineRead = .ok prev →
      send_command env.send pipePath (commandOf words) t fuel =
        some (.timedOut m) →
      main words pipePath outPath t env fuel =
        some (.exit 1 "" (errorLine m)) ∧
      ∀ wenv, main words pipePath outPath t { env with wait := wenv } fuel =
        some (.exit 1 "" (errorLine m))) ∧
    (commandOf words ≠ "" → baselineOf env.baselineRead = .ok prev →
      send_command env.send pipePath (commandOf words) t fuel =
        some (.oserr e) →
      main words pipePath outPath t env fuel =
        some (.exit 1 "" (errorLine e.msg)) ∧
      ∀ wenv, main words pipePath outPath t { env with wait := wenv } fuel =
        some (.exit 1 "" (errorLine e.msg))) := by
  refine ⟨?_, ?_, ?_⟩
  · intro he
    simp [baselineOf, he]
  · intro hc hb hs
    constructor
    · simp [main, hc, hb, hs]
    · intro wenv
      simp [main, hc, hb, hs]
  · intro hc hb hs
    constructor
    · simp [main, hc, hb, hs]
    · intro wenv
      simp [main, hc, hb, hs]

/-- Witness for C6: with no reader on the pipe, main reports the send
timeout with exit code 1, and the result is the same under a wait
environment that would have failed with a permission error, because the
wait phase is never reached. -/
theorem claim_C6_wit :
    (baselineOf (.err ⟨ENOENT, "No such file or directory"⟩) = .ok "") ∧
    (main ["heal"] "/tmp/fallout-cli-in" "/tmp/fallout-cli-out.txt" 1
        mEnvTimeout 1 =
      some (.exit 1 ""
        (errorLine ("timed out waiting for pipe: " ++ "/tmp/fallout-cli-in")))) ∧
    (main ["heal"] "/tmp/fallout-cli-in" "/tmp/fallout-cli-out.txt" 1
        { mEnvTimeout with wait := wEnvPerm } 1 =
      some (.exit 1 ""
        (errorLine ("timed out waiting for pipe: " ++ "/tmp/fallout-cli-in")))) ∧
    (main ["heal"] "/tmp/fallout-cli-in" "/tmp/fallout-cli-out.txt" 1
        mEnvPerm 1 =
      some (.exit 1 "" (errorLine "Permission denied"))) :=
  ⟨(claim_C6 mEnvTimeout ["heal"] "/tmp/fallout-cli-in" "/tmp/fallout-cli-out.txt"
      1 1 ⟨ENOENT, "No such file or directory"⟩ "x" "old").1 rfl,
   ((claim_C6 mEnvTimeout ["heal"] "/tmp/fallout-cli-in" "/tmp/fallout-cli-out.txt"
      1 1 ⟨ENOENT, "No such file or directory"⟩
      ("timed out waiting for pipe: " ++ "/tmp/fallout-cli-in") "old").2.1
      (by decide) rfl (envNoReader_timesOut "/tmp/fallout-cli-in" "heal" 0)).1,
   ((claim_C6 mEnvTimeout ["heal"] "/tmp/fallout-cli-in" "/tmp/fallout-cli-out.txt"
      1 1 ⟨ENOENT, "No such file or directory"⟩
      ("timed out waiting for pipe: " ++ "/tmp/fallout-cli-in") "old").2.1
      (by decide) rfl (envNoReader_timesOut "/tmp/fallout-cli-in" "heal" 0)).2
      wEnvPerm,
   ((claim_C6 mEnvPerm ["heal"] "/tmp/fallout-cli-in" "/tmp/fallout-cli-out.txt"
      1 1 ⟨13, "Permission denied"⟩ "x" "old").2.2
      (by decide) rfl rfl).1⟩

/-- C8: when the words joined by single spaces and trimmed yield an empty
command, `main` writes the empty-command error to stderr and returns
exit code 2, with a result that is independent of the whole environment
and fuel: no pipe or output file operation is consulted. -/
theorem claim_C8 (words : List String) (pipePath outPath : String) (t : ℚ)
    (env env2 : MainEnv) (fuel fuel2 : Nat)
    (h : commandOf words = "") :
    main words pipePath outPath t env fuel =
      some (.exit 2 "" "error: empty command\n") ∧
    main words pipePath outPath t env fuel =
      main words pipePath outPath t env2 fuel2 := by
  constructor
  · simp [main, h]
  · simp [main, h]

/-- Witness for C8 on the argument list with one blank word, and on an
argument list whose single word is a no-break space, which Python
`str.strip()` also removes. -/
theorem claim_C8_wit :
    (main ["  "] "/tmp/fallout-cli-in" "/tmp/fallout-cli-out.txt" 2 mEnvOk 1 =
      some (.exit 2 "" "error: empty command\n") ∧
    main ["  "] "/tmp/fallout-cli-in" "/tmp/fallout-cli-out.txt" 2 mEnvOk 1 =
      main ["  "] "/tmp/fallout-cli-in" "/tmp/fallout-cli-out.txt" 2 mEnvPerm 0) ∧
    main ["\u00A0"] "/tmp/fallout-cli-in" "/tmp/fallout-cli-out.txt" 2 mEnvOk 1 =
      some (.exit 2 "" "error: empty command\n") :=
  ⟨claim_C8 ["  "] "/tmp/fallout-cli-in" "/tmp/fallout-cli-out.txt" 2
      mEnvOk mEnvPerm 1 0 (by decide),
   (claim_C8 ["\u00A0"] "/tmp/fallout-cli-in" "/tmp/fallout-cli-out.txt" 2
      mEnvOk mEnvPerm 1 0 (by decide)).1⟩

/-- C9: on success the orchestrator emits the matched response on stdout
with a trailing newline ensured: the emitted text equals the response
when the response already ends in a newline, and the response followed
by exactly one newline otherwise; either way the emitted text ends in a
newline. -/
theorem claim_C9 (env : MainEnv) (words : List String)
    (pipePath outPath : String) (t : ℚ) (fuel : Nat) (prev d response : String)
    (hcmd : commandOf words ≠ "")
    (hbase : baselineOf env.baselineRead = .ok prev)
    (hsend : send_command env.send pipePath (commandOf words) t fuel =
      some (.sent d))
    (hwait : wait_for_response env.wait outPath prev (commandOf words) t fuel =
      some (.ok response)) :
    main words pipePath outPath t env fuel =
      some (.exit 0
        (response ++ (if strEndsWithNewline response then "" else "\n")) "") ∧
    (strEndsWithNewline response = true →
      response ++ (if strEndsWithNewline response then "" else "\n") =
        response) ∧
    (strEndsWithNewline response = false →
      response ++ (if strEndsWithNewline response then "" else "\n") =
        response ++ "\n") ∧
    strEndsWithNewline
      (response ++ (if strEndsWithNewline response then "" else "\n")) =
        true := by
  refine ⟨?_, ?_, ?_, ?_⟩
  · simp [main, hcmd, hbase, hsend, hwait]
  · intro he
    simp [he, String.append_empty]
  · intro he
    simp [he]
  · cases he : strEndsWithNewline response with
    | true => simp [he, String.append_empty]
    | false => simp [he, strEndsWithNewline_append]

/-- Witness for C9: the full success path of main on the command `state`
emits the matched response, which already ends in a newline. -/
theorem claim_C9_wit :
    main ["state"] "/tmp/fallout-cli-in" "/tmp/fallout-cli-out.txt" 2 mEnvOk 1 =
      some (.exit 0
        ("command=state\nHP: 100\n" ++
          (if strEndsWithNewline "command=state\nHP: 100\n" then "" else "\n"))
        "") ∧
    ("command=state\nHP: 100\n" ++
      (if strEndsWithNewline "command=state\nHP: 100\n" then "" else "\n")) =
      "command=state\nHP: 100\n" ∧
    strEndsWithNewline
      ("command=state\nHP: 100\n" ++
        (if strEndsWithNewline "command=state\nHP: 100\n" then "" else "\n")) =
      true :=
  ⟨(claim_C9 mEnvOk ["state"] "/tmp/fallout-cli-in" "/tmp/fallout-cli-out.txt"
      2 1 "old" ("state" ++ "\n") "command=state\nHP: 100\n"
      (by decide) rfl rfl (by decide)).1,
   (claim_C9 mEnvOk ["state"] "/tmp/fallout-cli-in" "/tmp/fallout-cli-out.txt"
      2 1 "old" ("state" ++ "\n") "command=state\nHP: 100\n"
      (by decide) rfl rfl (by decide)).2.1 (by decide),
   (claim_C9 mEnvOk ["state"] "/tmp/fallout-cli-in" "/tmp/fallout-cli-out.txt"
      2 1 "old" ("state" ++ "\n") "command=state\nHP: 100\n"
      (by decide) rfl rfl (by decide)).2.2.2⟩

end Cli
